import Mathlib

/-!
Verification development for the nvim-mcp repository (a Rust MCP server
bridging external tool callers to running Neovim instances).

Shallow embedding conventions:
* Filesystem and environment interactions are modelled by explicit oracle
  state (`FsState`, a `HOME` value, canonicalization results).
* The async editor RPC channel is modelled by oracle functions; every
  embedded operation is a total Lean function of the client state plus
  those oracles.
* Rust `u64`/`i32` values appearing here are never subject to overflow in
  the modelled code paths, so they are embedded as `Nat`/`Int`.
* Rust string slicing of the (ASCII hex) BLAKE3 digest is embedded as
  character-list slicing, which coincides with byte slicing on ASCII data.
* A Rust panic (e.g. `Option::unwrap` on `None`) is the distinguished
  outcome `Outcome.panic`.
-/

namespace NvimMcp

/-! ## Configuration (src/config.rs) -/

/-- Status of a path on the local filesystem: existing directory, existing
regular file, existing but neither (socket, FIFO, ...), or absent.
`exists()` corresponds to `≠ absent`, `is_dir()` to `= dir`,
`is_file()` to `= file`. -/
inductive PathKind
  | dir
  | file
  | other
  | absent
deriving DecidableEq

/-- Oracle model of the local filesystem: the status of every path, and
whether `create_dir_all` on a given path would fail (permissions etc.). -/
structure FsState where
  status : String → PathKind
  mkdirFails : String → Bool

/-- Mirror of `ConfigError` in src/config.rs. -/
inductive ConfigError
  | Environment (msg : String)
  | Filesystem (msg : String)
  | InvalidPath (msg : String)
deriving DecidableEq

/-- Mirror of `SocketGlobMode` in src/config.rs. -/
inductive SocketGlobMode
  | Directory
  | SingleFile
  | GlobPattern
deriving DecidableEq

/-- Model of `std::fs::create_dir_all`: fails when the oracle says so,
otherwise the path becomes an existing directory (succeeding also when the
directory already exists). -/
def create_dir_all (fs : FsState) (p : String) : Except ConfigError FsState :=
  if fs.mkdirFails p then
    .error (.Filesystem ("Cannot create socket directory " ++ p))
  else
    .ok { fs with status := fun q => if q = p then .dir else fs.status q }

/-- Mirror of `ServerConfig::default_socket_path` (non-Windows branch):
`$HOME/.cache/nvim/rpc`, created if missing. `home` is the value of the
`HOME` environment variable, `none` when unset. -/
def default_socket_path (home : Option String) (fs : FsState) :
    Except ConfigError (String × FsState) :=
  match home with
  | none => .error (.Environment "HOME variable not set")
  | some h =>
      let socket_dir := h ++ "/.cache/nvim/rpc"
      (create_dir_all fs socket_dir).map (fun fs' => (socket_dir, fs'))

/-- Mirror of `ServerConfig::resolve_socket_path_and_mode`. Returns the
resolved path, the addressing mode, and the (possibly updated) filesystem
state. -/
def resolve_socket_path_and_mode (home : Option String) (fs : FsState)
    (provided : Option String) :
    Except ConfigError (String × SocketGlobMode × FsState) :=
  match provided with
  | some path =>
      if fs.status path ≠ PathKind.absent then
        if fs.status path = PathKind.dir then
          .ok (path, .Directory, fs)
        else if fs.status path = PathKind.file then
          .ok (path, .SingleFile, fs)
        else
          .error (.InvalidPath
            ("Path exists but is neither file nor directory: " ++ path))
      else
        .ok (path, .GlobPattern, fs)
  | none =>
      (default_socket_path home fs).map (fun r => (r.1, .Directory, r.2))

/-! ## Connection registry and id generation (src/server/core.rs) -/

/-- Registry view of one stored Neovim client: `target` is
`NeovimClientTrait::target()`, i.e. `some t` exactly when the client holds
a live connection to target `t`. -/
structure ClientEntry where
  target : Option String
deriving DecidableEq

/-- Model of the `DashMap<String, Box<dyn NeovimClientTrait>>` registry as
a partial map from connection ids to entries. -/
def Registry : Type := String → Option ClientEntry

/-- DashMap `insert`: replaces any existing entry under the key. -/
def Registry.insert (reg : Registry) (k : String) (v : ClientEntry) : Registry :=
  fun q => if q = k then some v else reg q

/-- DashMap `remove`: drops the entry under the key. -/
def Registry.remove (reg : Registry) (k : String) : Registry :=
  fun q => if q = k then none else reg q

/-- Rust `&s[start..start+len]` on ASCII strings, as character slicing. -/
def substr (s : String) (start len : Nat) : String :=
  String.mk ((s.toList.drop start).take len)

/-- Scanning loop of `generate_shorter_connection_id`: for each window
start, take the 7-character window of `full_hash`; a free id is returned,
an id occupied by the same target is reused, an id occupied by a different
target (or by a client without a live target) is skipped; when the starts
are exhausted the full hash is the fallback. -/
def genLoop (reg : Registry) (target full_hash : String) : List Nat → String
  | [] => full_hash
  | start :: rest =>
      let candidate := substr full_hash start 7
      match reg candidate with
      | some entry =>
          match entry.target with
          | some t =>
              if t = target then candidate
              else genLoop reg target full_hash rest
          | none => genLoop reg target full_hash rest
      | none => candidate

/-- Mirror of `NeovimMcpServer::generate_shorter_connection_id`, with the
BLAKE3 hex digest function abstracted as `hash` (its output on real inputs
is a 64-character lowercase hex string). The Rust loop runs `start` over
`0..=(full_hash.len().saturating_sub(7))`. -/
def generate_shorter_connection_id (hash : String → String) (reg : Registry)
    (target : String) : String :=
  let full_hash := hash target
  genLoop reg target full_hash (List.range (full_hash.length - 7 + 1))

/-! ## Error taxonomy

`src/neovim/error.rs` as shipped in this snapshot is a stale superseded
iteration (it lacks the `Lsp` variant that src/neovim/client.rs constructs
and that the exhaustive `From<NeovimError> for McpError` match in
src/server/core.rs consumes); the enum below follows that exhaustive
match: exactly `Connection(String)`, `Api(String)` and
`Lsp { code: i32, message: String }`. -/

/-- Error type of the Neovim client layer. -/
inductive NeovimError
  | Connection (msg : String)
  | Api (msg : String)
  | Lsp (code : Int) (message : String)
deriving DecidableEq

/-- Model of `rmcp::ErrorData` as constructed by this crate: only the
`invalid_request` and `internal_error` constructors are used. -/
inductive McpErr
  | invalidRequest (msg : String)
  | internalError (msg : String)
deriving DecidableEq

/-- Mirror of `impl From<NeovimError> for McpError` in src/server/core.rs. -/
def neovimErrorToMcp : NeovimError → McpErr
  | .Connection msg => .invalidRequest msg
  | .Lsp code message =>
      .invalidRequest ("LSP Error: " ++ toString code ++ ", " ++ message)
  | .Api msg => .internalError msg

/-! ## JSON values and the tagged result envelope (src/neovim/client.rs) -/

/-- Minimal JSON value model (serde_json::Value; numbers restricted to
integers, which covers every number this crate's decoding inspects). -/
inductive Json
  | null
  | bool (b : Bool)
  | num (n : Int)
  | str (s : String)
  | arr (items : List Json)
  | obj (fields : List (String × Json))

/-- First field of a JSON object with the given name. -/
def getField : List (String × Json) → String → Option Json
  | [], _ => none
  | (k, v) :: rest, name => if k = name then some v else getField rest name

/-- Mirror of the `NvimExecuteLuaResult<T>` enum: serde variant tags are
`err_msg` for `Error`, `result` for `Ok`, `err` for `LspError`. -/
inductive NvimExecuteLuaResult (T : Type)
  | Error (msg : String)
  | Ok (result : T)
  | LspError (message : String) (code : Int)
deriving DecidableEq

/-- Model of the serde-derived externally tagged deserializer for
`NvimExecuteLuaResult<T>`: a single-entry object whose key names the
variant; the `T` payload decoder is a parameter. -/
def decodeNvimExecuteLuaResult {T : Type} (decT : Json → Option T) :
    Json → Option (NvimExecuteLuaResult T)
  | .obj [(tag, payload)] =>
      if tag = "err_msg" then
        match payload with
        | .str s => some (.Error s)
        | _ => none
      else if tag = "result" then
        (decT payload).map .Ok
      else if tag = "err" then
        match payload with
        | .obj fields =>
            match getField fields "message", getField fields "code" with
            | some (.str m), some (.num c) => some (.LspError m c)
            | _, _ => none
        | _ => none
      else none
  | _ => none

/-- Mirror of `impl From<NvimExecuteLuaResult<T>> for Result<T, NeovimError>`. -/
def NvimExecuteLuaResult.toResult {T : Type} :
    NvimExecuteLuaResult T → Except NeovimError T
  | .Ok result => .ok result
  | .Error msg => .error (.Api msg)
  | .LspError message code => .error (.Lsp code message)

/-! ## LSP protocol data model (src/neovim/client.rs) -/

/-- Position in a text document, zero-based line and character. -/
structure Position where
  line : Nat
  character : Nat
deriving DecidableEq

/-- Range in a text document; `stop` embeds the Rust field `end` (a Lean
keyword). -/
structure Range where
  start : Position
  stop : Position
deriving DecidableEq

/-- Wire-level text document identifier: URI plus optional version. -/
structure TextDocumentIdentifier where
  uri : String
  version : Option Int
deriving DecidableEq

/-- Mirror of the `DocumentIdentifier` enum (paths as strings). -/
inductive DocumentIdentifier
  | BufferId (handle : Nat)
  | ProjectRelativePath (path : String)
  | AbsolutePath (path : String)
deriving DecidableEq

/-- LSP-shaped diagnostic as embedded in Neovim diagnostic user data. -/
structure LSPDiagnostic where
  code : Option String
  message : String
  range : Range
  severity : Nat
  source : String
deriving DecidableEq

/-- Neovim diagnostic entry (`Diagnostic` struct); `ns` embeds the Rust
field `namespace` (a Lean keyword), and the `user_data.unknowns` flatten
map of extra JSON fields is dropped as inert. -/
structure Diagnostic where
  message : String
  code : Option String
  severity : Nat
  lnum : Nat
  col : Nat
  source : String
  bufnr : Nat
  end_lnum : Nat
  end_col : Nat
  ns : Nat
  user_data : Option LSPDiagnostic
deriving DecidableEq

/-- A single text edit of a workspace edit. -/
structure TextEdit where
  range : Range
  newText : String
deriving DecidableEq

/-- Workspace edit: per-URI lists of text edits. -/
structure WorkspaceEdit where
  changes : Option (List (String × List TextEdit))
deriving DecidableEq

/-- LSP command attached to a code action. -/
structure LspCommand where
  title : String
  command : String
deriving DecidableEq

/-- Mirror of the `CodeAction` struct (kind as its string identifier,
`disabled` as its reason, resolution `data` left as an opaque flag for
whether serde data is present). -/
structure CodeAction where
  title : String
  kind : Option String
  diagnostics : Option (List LSPDiagnostic)
  is_preferred : Option Bool
  disabled : Option String
  edit : Option WorkspaceEdit
  command : Option LspCommand
  hasData : Bool
deriving DecidableEq

/-- Mirror of `CodeAction::has_edit`. -/
def CodeAction.has_edit (a : CodeAction) : Bool :=
  a.edit.isSome

/-- Marked string of a hover result: plain markdown or language-tagged
code block. -/
inductive MarkedString
  | plain (s : String)
  | markup (lang : String) (value : String)
deriving DecidableEq

/-- Hover contents: one marked string, several, or markup content
(kind is `"plaintext"` or `"markdown"`). -/
inductive HoverContents
  | one (s : MarkedString)
  | many (items : List MarkedString)
  | content (kind : String) (value : String)
deriving DecidableEq

/-- Mirror of the `HoverResult` struct. -/
structure HoverResult where
  contents : HoverContents
  range : Option Range
deriving DecidableEq

/-- Parameters of position-based LSP requests. -/
structure TextDocumentPositionParams where
  text_document : TextDocumentIdentifier
  position : Position
deriving DecidableEq

/-! ## Neovim client model (src/neovim/client.rs) -/

/-- Msgpack-RPC value (nvim_rs `Value`), restricted to the shapes this
crate produces and inspects. -/
inductive RVal
  | nil
  | num (n : Int)
  | str (s : String)
  | bool (b : Bool)
deriving DecidableEq

/-- Rust `Value::as_str`. -/
def RVal.asStr : RVal → Option String
  | .str s => some s
  | _ => none

/-- Oracle for the editor side of the RPC channel: the result of executing
a Lua chunk with positional arguments (`Except` error = the nvim_rs call
error's display string). Both `nvim.exec_lua` and the legacy
`nvim.execute_lua` are routed through this single oracle. -/
structure RpcOracle where
  execLua : String → List RVal → Except String RVal

/-- One live connection: its target address plus the RPC oracle. The
background IO task is abandoned on disconnect and never observed by the
embedded operations, so it has no state here. -/
structure NeovimConnection where
  target : String
  oracle : RpcOracle

/-- Mirror of `NeovimClient`: at most one live connection. -/
structure NeovimClient where
  connection : Option NeovimConnection

/-- Result of running one client operation: success, a typed error, or a
Rust panic (`unwrap` on `None`). -/
inductive Outcome (α : Type)
  | ok (a : α)
  | err (e : NeovimError)
  | panic
deriving DecidableEq

/-- External decoding/encoding oracles (serde_json and path
canonicalization against the local filesystem of the bridge process). -/
structure Ext where
  canonicalize : String → Except String String
  parseDiagnostics : String → Except String (List Diagnostic)
  parseTextDocument : String → Except String TextDocumentIdentifier
  parseJson : String → Except String Json
  decodeHover : Json → Option HoverResult
  encodePositionParams : TextDocumentPositionParams → String

/-- Placeholder for the opaque versioned script
lua/lsp_make_text_document_params.lua shipped with the crate. -/
def lsp_make_text_document_params_lua : String :=
  "<lua/lsp_make_text_document_params.lua>"

/-- Placeholder for the opaque versioned script lua/lsp_hover.lua. -/
def lsp_hover_lua : String :=
  "<lua/lsp_hover.lua>"

/-- Placeholder for the opaque versioned script
lua/diagnostics_autocmd.lua. -/
def diagnostics_autocmd_lua : String :=
  "<lua/diagnostics_autocmd.lua>"

/-- Mirror of `make_text_document_identifier_from_path`: canonicalize the
path locally, then synthesize a versionless `file://` URI. -/
def make_text_document_identifier_from_path (ext : Ext) (p : String) :
    Except NeovimError TextDocumentIdentifier :=
  match ext.canonicalize p with
  | .error e => .error (.Api ("Failed to resolve path " ++ p ++ ": " ++ e))
  | .ok absolute_path => .ok { uri := "file://" ++ absolute_path, version := none }

/-- Lift an `Except NeovimError` into an `Outcome`. -/
def ofExcept {α : Type} : Except NeovimError α → Outcome α
  | .ok a => .ok a
  | .error e => .err e

/-- Mirror of `NeovimClient::get_diagnostics` (direct RPC, bypassing the
script envelope): serialize the (optionally buffer-scoped) diagnostic list
via `vim.json.encode` and parse it. -/
def NeovimClient.get_diagnostics (c : NeovimClient) (ext : Ext)
    (buffer_id : Option Nat) : Outcome (List Diagnostic) :=
  match c.connection with
  | none => .err (.Connection "Not connected to any Neovim instance")
  | some conn =>
      let args := match buffer_id with
        | some id => [RVal.num id]
        | none => []
      match conn.oracle.execLua "return vim.json.encode(vim.diagnostic.get(...))" args with
      | .ok v =>
          match v.asStr with
          | none => .panic
          | some s =>
              match ext.parseDiagnostics s with
              | .ok d => .ok d
              | .error e => .err (.Api ("Failed to parse diagnostics: " ++ e))
      | .error e => .err (.Api ("Failed to get diagnostics: " ++ e))

/-- Mirror of `NeovimClient::get_buffer_diagnostics`. -/
def NeovimClient.get_buffer_diagnostics (c : NeovimClient) (ext : Ext)
    (buffer_id : Nat) : Outcome (List Diagnostic) :=
  c.get_diagnostics ext (some buffer_id)

/-- Mirror of `NeovimClient::get_workspace_diagnostics`. -/
def NeovimClient.get_workspace_diagnostics (c : NeovimClient) (ext : Ext) :
    Outcome (List Diagnostic) :=
  c.get_diagnostics ext none

/-- Model of Rust `str::trim`: strip whitespace from both ends (the
whitespace classes relevant to Lua chunks coincide with
`Char.isWhitespace`). -/
def trimChars (l : List Char) : List Char :=
  ((l.dropWhile Char.isWhitespace).reverse.dropWhile Char.isWhitespace).reverse

/-- Rust `code.trim().is_empty()`. -/
def isBlank (code : String) : Bool :=
  (trimChars code.toList).isEmpty

/-- Mirror of `NeovimClient::execute_lua`: blank code is rejected with an
`Api` error before the connection is consulted. -/
def NeovimClient.execute_lua (c : NeovimClient) (code : String) : Outcome RVal :=
  if isBlank code then
    .err (.Api "Lua code cannot be empty")
  else
    match c.connection with
    | none => .err (.Connection "Not connected to any Neovim instance")
    | some conn =>
        match conn.oracle.execLua code [] with
        | .ok result => .ok result
        | .error e => .err (.Api ("Lua execution failed: " ++ e))

/-- Mirror of `NeovimClient::disconnect`: takes the connection, aborts the
IO task, and returns the target; the updated client is returned alongside. -/
def NeovimClient.disconnect (c : NeovimClient) : Outcome String × NeovimClient :=
  match c.connection with
  | some conn => (.ok conn.target, { connection := none })
  | none => (.err (.Connection "Not connected to any Neovim instance"), c)

/-- Mirror of `NeovimClient::setup_diagnostics_changed_autocmd`. -/
def NeovimClient.setup_diagnostics_changed_autocmd (c : NeovimClient) :
    Outcome Unit :=
  match c.connection with
  | none => .err (.Connection "Not connected to any Neovim instance")
  | some conn =>
      match conn.oracle.execLua diagnostics_autocmd_lua [] with
      | .ok _ => .ok ()
      | .error e =>
          .err (.Api ("Failed to set up diagnostics changed autocmd: " ++ e))

/-- Mirror of `NeovimClient::lsp_make_text_document_params`: ask the
editor for the buffer's document identifier. -/
def NeovimClient.lsp_make_text_document_params (c : NeovimClient) (ext : Ext)
    (buffer_id : Nat) : Outcome TextDocumentIdentifier :=
  match c.connection with
  | none => .err (.Connection "Not connected to any Neovim instance")
  | some conn =>
      match conn.oracle.execLua lsp_make_text_document_params_lua
          [RVal.num buffer_id] with
      | .ok raw =>
          match raw.asStr with
          | none => .panic
          | some s =>
              match ext.parseTextDocument s with
              | .ok doc => .ok doc
              | .error e =>
                  .err (.Api ("Failed to parse text document params: " ++ e))
      | .error e =>
          .err (.Api ("Failed to make text document params: " ++ e))

/-- Mirror of `NeovimClient::get_project_root` (`vim.fn.getcwd()`); a
non-string reply is an `Api` error here, not a panic (`ok_or_else`). -/
def NeovimClient.get_project_root (c : NeovimClient) : Outcome String :=
  match c.connection with
  | none => .err (.Connection "Not connected to any Neovim instance")
  | some conn =>
      match conn.oracle.execLua "return vim.fn.getcwd()" [] with
      | .ok value =>
          match value.asStr with
          | none => .err (.Api "Invalid working directory format")
          | some cwd => .ok cwd
      | .error e => .err (.Api ("Failed to get working directory: " ++ e))

/-- Rust `PathBuf::join` for the case actually exercised (a relative
second component). -/
def joinPath (root rel : String) : String :=
  root ++ "/" ++ rel

/-- Mirror of `NeovimClient::resolve_text_document_identifier`: dispatch
on the identifier variant. -/
def NeovimClient.resolve_text_document_identifier (c : NeovimClient) (ext : Ext) :
    DocumentIdentifier → Outcome TextDocumentIdentifier
  | .BufferId buffer_id => c.lsp_make_text_document_params ext buffer_id
  | .ProjectRelativePath rel_path =>
      match c.get_project_root with
      | .ok project_root =>
          ofExcept (make_text_document_identifier_from_path ext
            (joinPath project_root rel_path))
      | .err e => .err e
      | .panic => .panic
  | .AbsolutePath abs_path =>
      ofExcept (make_text_document_identifier_from_path ext abs_path)

/-- Mirror of `NeovimClient::lsp_hover`: resolve the document, then ship
the serialized position params into the editor and decode the tagged
envelope. -/
def NeovimClient.lsp_hover (c : NeovimClient) (ext : Ext) (client_name : String)
    (document : DocumentIdentifier) (position : Position) : Outcome HoverResult :=
  match c.resolve_text_document_identifier ext document with
  | .err e => .err e
  | .panic => .panic
  | .ok text_document =>
      match c.connection with
      | none => .err (.Connection "Not connected to any Neovim instance")
      | some conn =>
          let buffer_id := match document with
            | .BufferId id => id
            | _ => 0
          let params := ext.encodePositionParams { text_document, position }
          match conn.oracle.execLua lsp_hover_lua
              [RVal.str client_name, RVal.str params, RVal.num 1000,
               RVal.num buffer_id] with
          | .ok result =>
              match result.asStr with
              | none => .panic
              | some s =>
                  match ext.parseJson s with
                  | .error e =>
                      .err (.Api ("Failed to parse hover result: " ++ e))
                  | .ok j =>
                      match decodeNvimExecuteLuaResult ext.decodeHover j with
                      | none =>
                          .err (.Api
                            "Failed to parse hover result: invalid envelope")
                      | some d => ofExcept d.toResult
          | .error e => .err (.Api ("Failed to get LSP hover: " ++ e))

/-! ## MCP tool layer (src/server/tools.rs) -/

/-- Content item of a tool reply, as produced by the embedded tools:
`Content::text(..)` or `Content::json(code_actions)`. -/
inductive ToolContent
  | text (s : String)
  | json (actions : List CodeAction)
deriving DecidableEq

/-- Mirror of `CallToolResult::success(contents)` (isError = false). -/
structure CallToolResult where
  contents : List ToolContent
  isError : Bool
deriving DecidableEq

/-- Mirror of `NeovimMcpServer::get_connection`: look the id up or fail
with the invalid-request not-found error. -/
def get_connection (reg : Registry) (connection_id : String) :
    Except McpErr ClientEntry :=
  match reg connection_id with
  | some entry => .ok entry
  | none =>
      .error (.invalidRequest
        ("No Neovim connection found for ID: " ++ connection_id))

/-- Mirror of `NeovimMcpServer::connect` at registry level: generate the
id, best-effort disconnect any client already stored under it (which
leaves that entry registered but targetless), then on successful
`connect_path` plus autocmd setup insert the fresh connected client.
`connectResult`/`setupResult` are the oracles for the two editor
interactions; on failure the error propagates and nothing is inserted. -/
def tools_connect (hash : String → String) (reg : Registry) (path : String)
    (connectResult : Except NeovimError Unit)
    (setupResult : Except NeovimError Unit) :
    Registry × Except McpErr String :=
  let connection_id := generate_shorter_connection_id hash reg path
  let reg1 := match reg connection_id with
    | some _ => Registry.insert reg connection_id { target := none }
    | none => reg
  match connectResult with
  | .error e => (reg1, .error (neovimErrorToMcp e))
  | .ok _ =>
      match setupResult with
      | .error e => (reg1, .error (neovimErrorToMcp e))
      | .ok _ =>
          (Registry.insert reg1 connection_id { target := some path },
           .ok connection_id)

/-- Mirror of `NeovimMcpServer::disconnect`: verify the id exists (else
not-found), read the target (`"Unknown"` when the stored client has no
live connection), remove the entry, then run the client's own disconnect,
whose failure (no live connection) surfaces as an internal error. Returns
the updated registry and the reported target. -/
def tools_disconnect (reg : Registry) (connection_id : String) :
    Registry × Except McpErr String :=
  match reg connection_id with
  | none =>
      (reg, .error (.invalidRequest
        ("No Neovim connection found for ID: " ++ connection_id)))
  | some entry =>
      let target := entry.target.getD "Unknown"
      let reg' := Registry.remove reg connection_id
      match entry.target with
      | some _ => (reg', .ok target)
      | none =>
          (reg', .error (.internalError
            "Failed to disconnect: Connection error: Not connected to any Neovim instance"))

/-- Mirror of `NeovimMcpServer::lsp_organize_imports`. The three client
calls (`lsp_get_organize_imports_actions`, `lsp_resolve_code_action`,
`lsp_apply_workspace_edit`) are editor interactions passed as oracles;
`getActions` is the fetched organize-imports action list. An empty list is
a success carrying the fixed no-actions message; otherwise without
`apply_edits` the actions are returned as JSON; with it the first action
is resolved when it lacks an edit and its workspace edit is applied. -/
def lsp_organize_imports (reg : Registry) (connection_id : String)
    (getActions : Except NeovimError (List CodeAction))
    (resolveAction : CodeAction → Except NeovimError CodeAction)
    (applyEdit : WorkspaceEdit → Except NeovimError Unit)
    (apply_edits : Bool) : Except McpErr CallToolResult :=
  match get_connection reg connection_id with
  | .error e => .error e
  | .ok _ =>
      match getActions with
      | .error e => .error (neovimErrorToMcp e)
      | .ok code_actions =>
          match code_actions with
          | [] =>
              .ok { contents :=
                      [.text "No organize imports actions available for this document"],
                    isError := false }
          | action :: _ =>
              if !apply_edits then
                .ok { contents := [.json code_actions], isError := false }
              else
                let resolved : Except NeovimError CodeAction :=
                  if action.has_edit then .ok action
                  else resolveAction action
                match resolved with
                | .error e => .error (neovimErrorToMcp e)
                | .ok resolved_action =>
                    match resolved_action.edit with
                    | some edit =>
                        match applyEdit edit with
                        | .ok _ =>
                            .ok { contents :=
                                    [.text "Imports organized successfully"],
                                  isError := false }
                        | .error e => .error (neovimErrorToMcp e)
                    | none =>
                        .error (.invalidRequest
                          "Organize imports action does not contain workspace edit")

/-! ## Concrete fixtures used to evaluate the theorems on closed inputs -/

/-- Fixture filesystem: `"f"` is a regular file, `"d"` a directory,
everything else absent; directory creation always succeeds. -/
def fsW : FsState :=
  { status := fun q => if q = "f" then .file else if q = "d" then .dir else .absent,
    mkdirFails := fun _ => false }

/-- Fixture filesystem where every path is a special file (socket/FIFO). -/
def fsOtherW : FsState :=
  { status := fun _ => .other, mkdirFails := fun _ => false }

/-- Fixture registry holding one live connection. -/
def regW : Registry :=
  fun q => if q = "abc1234" then some { target := some "/tmp/nvim.sock" } else none

/-- Fixture empty registry. -/
def regEmptyW : Registry := fun _ => none

/-- Fixture hash oracle with a fixed 64-character hex digest. -/
def hashW : String → String :=
  fun _ => "0123456789abcdef0123456789abcdef0123456789abcdef0123456789abcdef"

/-- Fixture payload decoder for the envelope: integers only. -/
def decIntW : Json → Option Int :=
  fun j => match j with
    | .num n => some n
    | _ => none

/-- Fixture external oracles: only `"/ok"` canonicalizes. -/
def extW : Ext :=
  { canonicalize := fun p =>
      if p = "/ok" then .ok "/ok"
      else .error "No such file or directory (os error 2)",
    parseDiagnostics := fun _ => .error "fixture",
    parseTextDocument := fun _ => .error "fixture",
    parseJson := fun _ => .error "fixture",
    decodeHover := fun _ => none,
    encodePositionParams := fun _ => "" }

/-! ## Theorems -/

/-- C4: for a provided path, an existing regular file resolves to
`SingleFile`, an existing directory to `Directory`, and a nonexistent path
to `GlobPattern`, each returning the path unchanged and touching no
filesystem state. -/
theorem resolve_provided_mode_spec (home : Option String) (fs : FsState)
    (p : String) :
    (fs.status p = PathKind.file →
      resolve_socket_path_and_mode home fs (some p) =
        .ok (p, .SingleFile, fs))
    ∧ (fs.status p = PathKind.dir →
      resolve_socket_path_and_mode home fs (some p) =
        .ok (p, .Directory, fs))
    ∧ (fs.status p = PathKind.absent →
      resolve_socket_path_and_mode home fs (some p) =
        .ok (p, .GlobPattern, fs)) := by
  refine ⟨fun h => ?_, fun h => ?_, fun h => ?_⟩ <;>
    simp [resolve_socket_path_and_mode, h]

/-- Witness for C4 on the fixture filesystem. -/
theorem resolve_provided_mode_spec_witness :
    fsW.status "f" = PathKind.file
    ∧ resolve_socket_path_and_mode none fsW (some "f") =
        .ok ("f", .SingleFile, fsW)
    ∧ fsW.status "d" = PathKind.dir
    ∧ resolve_socket_path_and_mode none fsW (some "d") =
        .ok ("d", .Directory, fsW)
    ∧ fsW.status "x" = PathKind.absent
    ∧ resolve_socket_path_and_mode none fsW (some "x") =
        .ok ("x", .GlobPattern, fsW) :=
  ⟨by decide, (resolve_provided_mode_spec none fsW "f").1 (by decide),
   by decide, (resolve_provided_mode_spec none fsW "d").2.1 (by decide),
   by decide, (resolve_provided_mode_spec none fsW "x").2.2 (by decide)⟩

/-- C10: a provided path that exists but is neither a regular file nor a
directory makes resolution fail with `ConfigError::InvalidPath`; no
addressing mode is produced. -/
theorem resolve_provided_other_invalid (home : Option String) (fs : FsState)
    (p : String) (h : fs.status p = PathKind.other) :
    resolve_socket_path_and_mode home fs (some p) =
      .error (.InvalidPath
        ("Path exists but is neither file nor directory: " ++ p)) := by
  simp [resolve_socket_path_and_mode, h]

/-- Witness for C10 on a fixture socket path. -/
theorem resolve_provided_other_invalid_witness :
    fsOtherW.status "/tmp/s.sock" = PathKind.other
    ∧ resolve_socket_path_and_mode none fsOtherW (some "/tmp/s.sock") =
        .error (.InvalidPath
          ("Path exists but is neither file nor directory: " ++ "/tmp/s.sock")) :=
  ⟨by decide, resolve_provided_other_invalid none fsOtherW "/tmp/s.sock" (by decide)⟩

/-- C5: resolution with no provided path only ever yields `Directory`
mode; whenever it succeeds the returned path is the default cache
directory and that directory exists afterwards, and with `HOME` set and a
working mkdir it does succeed, creating the directory. -/
theorem resolve_none_default_dir_spec (home : Option String) (fs : FsState) :
    (∀ p m fs', resolve_socket_path_and_mode home fs none = .ok (p, m, fs') →
      m = SocketGlobMode.Directory ∧ fs'.status p = PathKind.dir)
    ∧ (∀ h, home = some h →
      fs.mkdirFails (h ++ "/.cache/nvim/rpc") = false →
      resolve_socket_path_and_mode home fs none =
        .ok (h ++ "/.cache/nvim/rpc", SocketGlobMode.Directory,
          { fs with status := fun q =>
              if q = h ++ "/.cache/nvim/rpc" then PathKind.dir
              else fs.status q })) := by
  constructor
  · intro p m fs' hres
    cases home with
    | none =>
        simp [resolve_socket_path_and_mode, default_socket_path,
          Except.map] at hres
    | some h =>
        by_cases hmk : fs.mkdirFails (h ++ "/.cache/nvim/rpc")
        · simp [resolve_socket_path_and_mode, default_socket_path,
            create_dir_all, hmk, Except.map] at hres
        · simp [resolve_socket_path_and_mode, default_socket_path,
            create_dir_all, hmk, Except.map] at hres
          obtain ⟨hp, hm, hfs⟩ := hres
          subst hp; subst hm; subst hfs
          simp
  · intro h hh hmk
    subst hh
    simp [resolve_socket_path_and_mode, default_socket_path,
      create_dir_all, hmk, Except.map]

/-- Witness for C5 with `HOME=/home/u` on the fixture filesystem. -/
theorem resolve_none_default_dir_spec_witness :
    fsW.mkdirFails ("/home/u" ++ "/.cache/nvim/rpc") = false
    ∧ resolve_socket_path_and_mode (some "/home/u") fsW none =
        .ok ("/home/u" ++ "/.cache/nvim/rpc", SocketGlobMode.Directory,
          { fsW with status := fun q =>
              if q = "/home/u" ++ "/.cache/nvim/rpc" then PathKind.dir
              else fsW.status q })
    ∧ SocketGlobMode.Directory = SocketGlobMode.Directory
    ∧ ({ fsW with status := fun q =>
            if q = "/home/u" ++ "/.cache/nvim/rpc" then PathKind.dir
            else fsW.status q } : FsState).status
          ("/home/u" ++ "/.cache/nvim/rpc") = PathKind.dir :=
  have h2 :=
    (resolve_none_default_dir_spec (some "/home/u") fsW).2 "/home/u" rfl rfl
  have h1 :=
    (resolve_none_default_dir_spec (some "/home/u") fsW).1 _ _ _ h2
  ⟨rfl, h2, h1.1, h1.2⟩

/-- C3: the decoded tagged envelope maps each variant to exactly one
outcome: `{result: T}` to a typed success, `{err_msg: s}` to an `Api`
error carrying `s`, and `{err: {message, code}}` to an `Lsp` error
carrying both the message and the numeric code. -/
theorem envelope_decode_spec {T : Type} (decT : Json → Option T) :
    (∀ j t, decT j = some t →
      (decodeNvimExecuteLuaResult decT (Json.obj [("result", j)])).map
          NvimExecuteLuaResult.toResult =
        some (.ok t))
    ∧ (∀ s, (decodeNvimExecuteLuaResult decT
          (Json.obj [("err_msg", .str s)])).map
          NvimExecuteLuaResult.toResult =
        some (.error (.Api s)))
    ∧ (∀ m c, (decodeNvimExecuteLuaResult decT
          (Json.obj [("err", .obj [("message", .str m), ("code", .num c)])])).map
          NvimExecuteLuaResult.toResult =
        some (.error (.Lsp c m))) := by
  refine ⟨fun j t h => ?_, fun s => ?_, fun m c => ?_⟩ <;>
    simp [decodeNvimExecuteLuaResult, getField, NvimExecuteLuaResult.toResult, *]

/-- Witness for C3 with the integer payload decoder. -/
theorem envelope_decode_spec_witness :
    decIntW (Json.num 5) = some 5
    ∧ (decodeNvimExecuteLuaResult decIntW
          (Json.obj [("result", Json.num 5)])).map
          NvimExecuteLuaResult.toResult = some (.ok 5)
    ∧ (decodeNvimExecuteLuaResult decIntW
          (Json.obj [("err_msg", .str "boom")])).map
          NvimExecuteLuaResult.toResult = some (.error (.Api "boom"))
    ∧ (decodeNvimExecuteLuaResult decIntW
          (Json.obj [("err", .obj [("message", .str "m"), ("code", .num 3)])])).map
          NvimExecuteLuaResult.toResult = some (.error (.Lsp 3 "m")) :=
  ⟨rfl, (envelope_decode_spec decIntW).1 (Json.num 5) 5 rfl,
   (envelope_decode_spec decIntW).2.1 "boom",
   (envelope_decode_spec decIntW).2.2 "m" 3⟩

/-- C6: resolving an `AbsolutePath` document identifier is a total local
computation (it never consults the editor, hence never hangs): when
canonicalization fails the result is exactly an `Api` error, and when the
path exists the result is a versionless `file://` identifier. -/
theorem resolve_absolute_path_spec (c : NeovimClient) (ext : Ext) (p : String) :
    (∀ e, ext.canonicalize p = .error e →
      c.resolve_text_document_identifier ext (.AbsolutePath p) =
        .err (.Api ("Failed to resolve path " ++ p ++ ": " ++ e)))
    ∧ (∀ a, ext.canonicalize p = .ok a →
      c.resolve_text_document_identifier ext (.AbsolutePath p) =
        .ok { uri := "file://" ++ a, version := none }) := by
  constructor <;> intro x hx <;>
    simp [NeovimClient.resolve_text_document_identifier,
      make_text_document_identifier_from_path, ofExcept, hx]

/-- Witness for C6 on the fixture oracles with a disconnected client. -/
theorem resolve_absolute_path_spec_witness :
    extW.canonicalize "/definitely/not/a/real/path" =
      .error "No such file or directory (os error 2)"
    ∧ NeovimClient.resolve_text_document_identifier { connection := none } extW
        (.AbsolutePath "/definitely/not/a/real/path") =
      .err (.Api ("Failed to resolve path " ++ "/definitely/not/a/real/path"
        ++ ": " ++ "No such file or directory (os error 2)"))
    ∧ extW.canonicalize "/ok" = .ok "/ok"
    ∧ NeovimClient.resolve_text_document_identifier { connection := none } extW
        (.AbsolutePath "/ok") =
      .ok { uri := "file://" ++ "/ok", version := none } :=
  ⟨rfl,
   (resolve_absolute_path_spec { connection := none } extW
     "/definitely/not/a/real/path").1 _ rfl,
   rfl,
   (resolve_absolute_path_spec { connection := none } extW "/ok").2 _ rfl⟩

/-- C7: organize-imports on a connection whose code-action query returns
an empty list is a success carrying exactly the fixed no-actions message,
regardless of the apply flag and of the resolve/apply oracles. -/
theorem organize_imports_empty_spec (reg : Registry) (cid : String)
    (entry : ClientEntry)
    (resolveA : CodeAction → Except NeovimError CodeAction)
    (applyE : WorkspaceEdit → Except NeovimError Unit) (b : Bool)
    (hconn : reg cid = some entry) :
    lsp_organize_imports reg cid (.ok []) resolveA applyE b =
      .ok { contents :=
              [.text "No organize imports actions available for this document"],
            isError := false } := by
  simp [lsp_organize_imports, get_connection, hconn]

/-- Witness for C7 on the fixture registry. -/
theorem organize_imports_empty_spec_witness :
    regW "abc1234" = some { target := some "/tmp/nvim.sock" }
    ∧ lsp_organize_imports regW "abc1234" (.ok []) (fun a => .ok a)
        (fun _ => .ok ()) true =
      .ok { contents :=
              [.text "No organize imports actions available for this document"],
            isError := false } :=
  ⟨by decide,
   organize_imports_empty_spec regW "abc1234" { target := some "/tmp/nvim.sock" }
     (fun a => .ok a) (fun _ => .ok ()) true (by decide)⟩

/-- C8: disconnecting an unknown id fails with the not-found error and
leaves the registry unchanged; disconnecting a live id succeeds with the
entry's target, removes the entry, and a second disconnect of the same id
then fails with the not-found error. -/
theorem disconnect_registry_spec (reg : Registry) (cid : String) :
    (reg cid = none →
      tools_disconnect reg cid =
        (reg, .error (.invalidRequest
          ("No Neovim connection found for ID: " ++ cid))))
    ∧ (∀ t, reg cid = some { target := some t } →
      tools_disconnect reg cid = (Registry.remove reg cid, .ok t)
      ∧ Registry.remove reg cid cid = none
      ∧ tools_disconnect (Registry.remove reg cid) cid =
          (Registry.remove reg cid, .error (.invalidRequest
            ("No Neovim connection found for ID: " ++ cid)))) := by
  constructor
  · intro h
    simp [tools_disconnect, h]
  · intro t h
    have hrem : Registry.remove reg cid cid = none := by
      simp [Registry.remove]
    exact ⟨by simp [tools_disconnect, h, Option.getD], hrem,
      by simp [tools_disconnect, hrem]⟩

/-- Witness for C8 on the fixture registry. -/
theorem disconnect_registry_spec_witness :
    regW "abc1234" = some { target := some "/tmp/nvim.sock" }
    ∧ tools_disconnect regW "abc1234" =
        (Registry.remove regW "abc1234", .ok "/tmp/nvim.sock")
    ∧ Registry.remove regW "abc1234" "abc1234" = none
    ∧ tools_disconnect (Registry.remove regW "abc1234") "abc1234" =
        (Registry.remove regW "abc1234", .error (.invalidRequest
          ("No Neovim connection found for ID: " ++ "abc1234")))
    ∧ regW "zzz" = none
    ∧ tools_disconnect regW "zzz" =
        (regW, .error (.invalidRequest
          ("No Neovim connection found for ID: " ++ "zzz"))) :=
  have h2 := (disconnect_registry_spec regW "abc1234").2 "/tmp/nvim.sock" (by decide)
  ⟨by decide, h2.1, h2.2.1, h2.2.2, by decide,
   (disconnect_registry_spec regW "zzz").1 (by decide)⟩

/-- Helper for C1: rescanning after registering the freshly generated id
under the same target returns the same id, for any window list. -/
theorem genLoop_insert_self (reg : Registry) (target h : String) (L : List Nat) :
    genLoop (Registry.insert reg (genLoop reg target h L) { target := some target })
      target h L = genLoop reg target h L := by
  induction L with
  | nil => rfl
  | cons s rest ih =>
    cases hc : reg (substr h s 7) with
    | none =>
        have hR : genLoop reg target h (s :: rest) = substr h s 7 := by
          simp [genLoop, hc]
        rw [hR]
        simp [genLoop, Registry.insert]
    | some entry =>
        cases het : entry.target with
        | some t =>
            by_cases hts : t = target
            · have hR : genLoop reg target h (s :: rest) = substr h s 7 := by
                simp [genLoop, hc, het, hts]
              rw [hR]
              simp [genLoop, Registry.insert]
            · have hR : genLoop reg target h (s :: rest) =
                  genLoop reg target h rest := by
                simp [genLoop, hc, het, hts]
              rw [hR]
              by_cases hcr : substr h s 7 = genLoop reg target h rest
              · simp [genLoop, Registry.insert, ← hcr]
              · have hlook :
                    Registry.insert reg (genLoop reg target h rest)
                      { target := some target } (substr h s 7) =
                      reg (substr h s 7) := by
                  simp [Registry.insert, hcr]
                simp only [genLoop, hlook, hc, het]
                simp [hts, ih]
        | none =>
            have hR : genLoop reg target h (s :: rest) =
                genLoop reg target h rest := by
              simp [genLoop, hc, het]
            rw [hR]
            by_cases hcr : substr h s 7 = genLoop reg target h rest
            · simp [genLoop, Registry.insert, ← hcr]
            · have hlook :
                  Registry.insert reg (genLoop reg target h rest)
                    { target := some target } (substr h s 7) =
                    reg (substr h s 7) := by
                simp [Registry.insert, hcr]
              simp only [genLoop, hlook, hc, het]
              exact ih

/-- Helper for C1: id generation commutes with registering the generated
id under the generating target. -/
theorem generate_insert_self (hash : String → String) (reg : Registry)
    (target : String) :
    generate_shorter_connection_id hash
      (Registry.insert reg (generate_shorter_connection_id hash reg target)
        { target := some target })
      target = generate_shorter_connection_id hash reg target := by
  simp only [generate_shorter_connection_id]
  exact genLoop_insert_self reg target (hash target) _

/-- C1: a successful connect stores the generated id for the target, and
generating again with that session registered yields the same id —
`generate_shorter_connection_id` is idempotent per target. -/
theorem connect_id_idempotent (hash : String → String) (reg : Registry)
    (target : String) :
    (tools_connect hash reg target (.ok ()) (.ok ())).2 =
      .ok (generate_shorter_connection_id hash reg target)
    ∧ generate_shorter_connection_id hash
        (tools_connect hash reg target (.ok ()) (.ok ())).1 target =
      generate_shorter_connection_id hash reg target := by
  constructor
  · rfl
  · have hfst : (tools_connect hash reg target (.ok ()) (.ok ())).1 =
        Registry.insert reg (generate_shorter_connection_id hash reg target)
          { target := some target } := by
      simp only [tools_connect]
      cases hcase : reg (generate_shorter_connection_id hash reg target) with
      | none => rfl
      | some e =>
          funext q
          by_cases hq : q = generate_shorter_connection_id hash reg target <;>
            simp [Registry.insert, hq]
    rw [hfst]
    exact generate_insert_self hash reg target

/-- Helper for C2: every result of the scanning loop is either one of the
scanned windows or the full-hash fallback. -/
theorem genLoop_shape (reg : Registry) (target h : String) (L : List Nat) :
    (∃ s ∈ L, genLoop reg target h L = substr h s 7)
    ∨ genLoop reg target h L = h := by
  induction L with
  | nil => exact Or.inr rfl
  | cons s rest ih =>
    cases hc : reg (substr h s 7) with
    | none =>
        exact Or.inl ⟨s, by simp, by simp [genLoop, hc]⟩
    | some entry =>
        cases het : entry.target with
        | some t =>
            by_cases hts : t = target
            · exact Or.inl ⟨s, by simp, by simp [genLoop, hc, het, hts]⟩
            · have hR : genLoop reg target h (s :: rest) =
                  genLoop reg target h rest := by
                simp [genLoop, hc, het, hts]
              rcases ih with ⟨s', hs', heq⟩ | heq
              · exact Or.inl ⟨s', by simp [hs'], by rw [hR]; exact heq⟩
              · exact Or.inr (by rw [hR]; exact heq)
        | none =>
            have hR : genLoop reg target h (s :: rest) =
                genLoop reg target h rest := by
              simp [genLoop, hc, het]
            rcases ih with ⟨s', hs', heq⟩ | heq
            · exact Or.inl ⟨s', by simp [hs'], by rw [hR]; exact heq⟩
            · exact Or.inr (by rw [hR]; exact heq)

/-- C2: when no registry entry occupies the first 7-character window of
the 64-character digest, the generated id is exactly that first window; it
has 7 characters, all drawn from the digest (hence hex digits); and in
general every generated id is a 7-character window of the digest, falling
back to the full digest only when all windows are occupied. -/
theorem generate_first_window_spec (hash : String → String) (reg : Registry)
    (T : String) (hlen : (hash T).length = 64)
    (hfree : reg (substr (hash T) 0 7) = none) :
    generate_shorter_connection_id hash reg T = substr (hash T) 0 7
    ∧ (generate_shorter_connection_id hash reg T).length = 7
    ∧ (∀ ch ∈ (generate_shorter_connection_id hash reg T).toList,
        ch ∈ (hash T).toList)
    ∧ (∀ reg' : Registry,
        (∃ s, s + 7 ≤ 64 ∧
          generate_shorter_connection_id hash reg' T = substr (hash T) s 7)
        ∨ generate_shorter_connection_id hash reg' T = hash T) := by
  have hrange : List.range ((hash T).length - 7 + 1) =
      0 :: (List.range 57).map Nat.succ := by
    rw [hlen]
    exact List.range_succ_eq_map 57
  have h1 : generate_shorter_connection_id hash reg T = substr (hash T) 0 7 := by
    simp only [generate_shorter_connection_id, hrange, genLoop, hfree]
  have hlist : (hash T).toList.length = 64 := hlen
  refine ⟨h1, ?_, ?_, ?_⟩
  · rw [h1]
    show (((hash T).toList.drop 0).take 7).length = 7
    simp [hlist]
    omega
  · rw [h1]
    intro ch hch
    have hch' : ch ∈ ((hash T).toList.drop 0).take 7 := hch
    exact List.drop_subset _ _ (List.take_subset _ _ hch')
  · intro reg'
    have hshape := genLoop_shape reg' T (hash T)
      (List.range ((hash T).length - 7 + 1))
    rcases hshape with ⟨s, hs, heq⟩ | heq
    · refine Or.inl ⟨s, ?_, heq⟩
      rw [hlen] at hs
      have := List.mem_range.mp hs
      omega
    · exact Or.inr heq

/-- Witness for C2 on the fixture digest and the empty registry, at the
spec's example target. -/
theorem generate_first_window_spec_witness :
    (hashW "/tmp/nvim-mcp-test.sock").length = 64
    ∧ regEmptyW (substr (hashW "/tmp/nvim-mcp-test.sock") 0 7) = none
    ∧ generate_shorter_connection_id hashW regEmptyW "/tmp/nvim-mcp-test.sock" =
        substr (hashW "/tmp/nvim-mcp-test.sock") 0 7
    ∧ (generate_shorter_connection_id hashW regEmptyW
        "/tmp/nvim-mcp-test.sock").length = 7 :=
  have hmain := generate_first_window_spec hashW regEmptyW
    "/tmp/nvim-mcp-test.sock" (by decide) rfl
  ⟨by decide, rfl, hmain.1, hmain.2.1⟩

/-- C9 counterexample: on a client with no connection, `execute_lua` with
blank code returns the blank-code `Api` error — not the
"Not connected to any Neovim instance" `Connection` error — because the
blank-code validation runs before the connection check. -/
theorem execute_lua_blank_not_connection_error :
    NeovimClient.execute_lua { connection := none } "" =
      .err (.Api "Lua code cannot be empty")
    ∧ NeovimClient.execute_lua { connection := none } "" ≠
      .err (.Connection "Not connected to any Neovim instance") := by
  constructor
  · decide
  · decide

/-- C9 (amended): on a client with no established connection, every
embedded operation returns the
`Connection "Not connected to any Neovim instance"` error — independently
of the RPC oracle, i.e. without issuing any request, and never a panic —
except that `execute_lua` validates blank code first (an `Api` error even
when disconnected, see the counterexample) and `AbsolutePath` document
resolution never consults the connection, so `lsp_hover` on an
`AbsolutePath` yields the `Connection` error only when local
canonicalization succeeds (otherwise the local `Api` error surfaces). -/
theorem not_connected_connection_error (ext : Ext) (c : NeovimClient)
    (h : c.connection = none) :
    (∀ b, c.get_diagnostics ext b =
      .err (.Connection "Not connected to any Neovim instance"))
    ∧ (∀ b, c.get_buffer_diagnostics ext b =
      .err (.Connection "Not connected to any Neovim instance"))
    ∧ c.get_workspace_diagnostics ext =
      .err (.Connection "Not connected to any Neovim instance")
    ∧ (c.disconnect).1 =
      .err (.Connection "Not connected to any Neovim instance")
    ∧ (c.disconnect).2 = c
    ∧ (∀ code, isBlank code = false → c.execute_lua code =
      .err (.Connection "Not connected to any Neovim instance"))
    ∧ c.setup_diagnostics_changed_autocmd =
      .err (.Connection "Not connected to any Neovim instance")
    ∧ (∀ b, c.lsp_make_text_document_params ext b =
      .err (.Connection "Not connected to any Neovim instance"))
    ∧ c.get_project_root =
      .err (.Connection "Not connected to any Neovim instance")
    ∧ (∀ b, c.resolve_text_document_identifier ext (.BufferId b) =
      .err (.Connection "Not connected to any Neovim instance"))
    ∧ (∀ rel, c.resolve_text_document_identifier ext
        (.ProjectRelativePath rel) =
      .err (.Connection "Not connected to any Neovim instance"))
    ∧ (∀ name b pos, c.lsp_hover ext name (.BufferId b) pos =
      .err (.Connection "Not connected to any Neovim instance"))
    ∧ (∀ name rel pos, c.lsp_hover ext name (.ProjectRelativePath rel) pos =
      .err (.Connection "Not connected to any Neovim instance"))
    ∧ (∀ name p a pos, ext.canonicalize p = .ok a →
      c.lsp_hover ext name (.AbsolutePath p) pos =
      .err (.Connection "Not connected to any Neovim instance")) := by
  refine ⟨fun b => ?_, fun b => ?_, ?_, ?_, ?_, fun code hcode => ?_, ?_,
    fun b => ?_, ?_, fun b => ?_, fun rel => ?_, fun name b pos => ?_,
    fun name rel pos => ?_, fun name p a pos hcanon => ?_⟩
  · simp [NeovimClient.get_diagnostics, h]
  · simp [NeovimClient.get_buffer_diagnostics, NeovimClient.get_diagnostics, h]
  · simp [NeovimClient.get_workspace_diagnostics, NeovimClient.get_diagnostics, h]
  · simp [NeovimClient.disconnect, h]
  · simp [NeovimClient.disconnect, h]
  · simp [NeovimClient.execute_lua, hcode, h]
  · simp [NeovimClient.setup_diagnostics_changed_autocmd, h]
  · simp [NeovimClient.lsp_make_text_document_params, h]
  · simp [NeovimClient.get_project_root, h]
  · simp [NeovimClient.resolve_text_document_identifier,
      NeovimClient.lsp_make_text_document_params, h]
  · simp [NeovimClient.resolve_text_document_identifier,
      NeovimClient.get_project_root, h]
  · simp [NeovimClient.lsp_hover, NeovimClient.resolve_text_document_identifier,
      NeovimClient.lsp_make_text_document_params, h]
  · simp [NeovimClient.lsp_hover, NeovimClient.resolve_text_document_identifier,
      NeovimClient.get_project_root, h]
  · simp [NeovimClient.lsp_hover, NeovimClient.resolve_text_document_identifier,
      make_text_document_identifier_from_path, ofExcept, hcanon, h]

/-- Witness for the amended C9 on a disconnected fixture client. -/
theorem not_connected_connection_error_witness :
    ({ connection := none } : NeovimClient).connection = none
    ∧ NeovimClient.get_diagnostics { connection := none } extW (some 0) =
        .err (.Connection "Not connected to any Neovim instance")
    ∧ isBlank "return 1" = false
    ∧ NeovimClient.execute_lua { connection := none } "return 1" =
        .err (.Connection "Not connected to any Neovim instance")
    ∧ extW.canonicalize "/ok" = .ok "/ok"
    ∧ NeovimClient.lsp_hover { connection := none } extW "rust_analyzer"
        (.AbsolutePath "/ok") { line := 0, character := 0 } =
        .err (.Connection "Not connected to any Neovim instance") := by
  have hmain := not_connected_connection_error extW { connection := none } rfl
  obtain ⟨hd, _, _, _, _, hexec, _, _, _, _, _, _, _, hha⟩ := hmain
  exact ⟨rfl, hd (some 0), by decide, hexec "return 1" (by decide), rfl,
    hha "rust_analyzer" "/ok" "/ok" { line := 0, character := 0 } rfl⟩

end NvimMcp
